import Mathlib

/-!
Verification of the tailsrv broadcast server (src/src/main.rs) against its
natural-language specification.  The definitions below are a shallow
embedding of the io_uring-based implementation in `main.rs`: machine
integers become `Nat`/`Int`, the `CLIENTS` BTreeMap becomes an association
list, fallible operations return `Option`/`Except`, and the per-client
transfer loop becomes an explicit step relation on a session state.
-/

namespace Tailsrv

/-! ## UserData tags (main.rs, `enum UserData` and its `From`/`TryFrom` impls) -/

/-- `const FILL_FROM: u64 = 100_000`. -/
def FILL_FROM : Nat := 100000

/-- `u16::MAX as u64`. -/
def U16_MAX : Nat := 65535

/-- `const FILL_TO: u64 = FILL_FROM + u16::MAX as u64`. -/
def FILL_TO : Nat := FILL_FROM + U16_MAX

/-- `const DRAIN_FROM: u64 = 200_000`. -/
def DRAIN_FROM : Nat := 200000

/-- `const DRAIN_TO: u64 = DRAIN_FROM + u16::MAX as u64`. -/
def DRAIN_TO : Nat := DRAIN_FROM + U16_MAX

/-- `u32::MAX`, the length argument passed to both splice opcodes. -/
def U32_MAX : Nat := 4294967295

/-- `pub const CHUNK_SIZE: usize = 1024 * 1024` (pool.rs / librarian.rs,
the historical thread-pool variants; the constant named by the spec). -/
def CHUNK_SIZE : Nat := 1024 * 1024

/-- The io_uring completion tag, `enum UserData` in main.rs.  Ports are
`u16` in the source; we carry them as `Nat` (the claims quantify over
`p : u16`, i.e. `p ≤ U16_MAX`). -/
inductive UserData where
  | newClient : UserData
  | inotify : UserData
  | fillPipe (port : Nat) : UserData
  | drainPipe (port : Nat) : UserData
deriving DecidableEq, Repr

/-- `impl From<UserData> for u64`. -/
def UserData.toU64 : UserData → Nat
  | .newClient => 0
  | .inotify => 1
  | .fillPipe port => port + FILL_FROM
  | .drainPipe port => port + DRAIN_FROM

/-- `impl TryFrom<u64> for UserData`.  The source matches on the half-open
ranges `FILL_FROM..FILL_TO` and `DRAIN_FROM..DRAIN_TO`; everything else is
`Err("Unknown user data")`, modelled as `none`. -/
def UserData.tryFrom (value : Nat) : Option UserData :=
  if value = 0 then some .newClient
  else if value = 1 then some .inotify
  else if FILL_FROM ≤ value ∧ value < FILL_TO then some (.fillPipe (value - FILL_FROM))
  else if DRAIN_FROM ≤ value ∧ value < DRAIN_TO then some (.drainPipe (value - DRAIN_FROM))
  else none

/-! ## Client state and header resolution (main.rs, `struct Client`, `Client::new`) -/

/-- The mutable per-client fields of `struct Client` (the fds `conn`,
`pipe_rdr`, `pipe_wtr` carry no state relevant to the claims). -/
structure Client where
  offset : Nat
  bytesInPipe : Nat
  inFlight : Bool
deriving DecidableEq, Repr

/-- Offset resolution in `Client::new`: `usize::try_from(header)` succeeds
exactly when the header is non-negative; otherwise the offset is
`cur_len.saturating_add_signed(header)`.  For a negative `header` the
saturation is at 0, which `Int.toNat` provides. -/
def resolveOffset (header : Int) (curLen : Nat) : Nat :=
  if 0 ≤ header then header.toNat
  else ((curLen : Int) + header).toNat

/-- `Client::new`: parse the header (taken here as the already-parsed
integer), resolve it against an acquire load `curLen` of `FILE_LENGTH`,
and start with an empty pipe and no request in flight. -/
def Client.new (header : Int) (curLen : Nat) : Client :=
  { offset := resolveOffset header curLen, bytesInPipe := 0, inFlight := false }

/-! ## Request issuing (main.rs, `issue_requests`, `fill_pipe`, `drain_pipe`) -/

/-- What `issue_requests` pushes for one client in one runloop iteration. -/
inductive IssueAction where
  | nothing : IssueAction
  | drainOnly : IssueAction
  | fillAndDrain : IssueAction
deriving DecidableEq, Repr

/-- The per-client branch of `issue_requests`: skip clients with a request
in flight; retry only the drain when `bytes_in_pipe > 0`; otherwise fill
and drain when `offset < file_len`. -/
def issueAction (fileLen : Nat) (c : Client) : IssueAction :=
  if c.inFlight then .nothing
  else if 0 < c.bytesInPipe then .drainOnly
  else if c.offset < fileLen then .fillAndDrain
  else .nothing

/-- A splice submission-queue entry as built by `fill_pipe`/`drain_pipe`:
source offset (`-1` means "use the fd's cursor", as for a pipe), the
requested length, and the completion tag. -/
structure SpliceSqe where
  srcOffset : Int
  dstOffset : Int
  len : Nat
  userData : Nat
deriving DecidableEq, Repr

/-- `fn fill_pipe`: splice from the file at the client's current offset
into the pipe, requesting `u32::MAX` bytes. -/
def fill_pipe (clientId : Nat) (c : Client) : SpliceSqe :=
  { srcOffset := (c.offset : Int)
  , dstOffset := -1
  , len := U32_MAX
  , userData := UserData.toU64 (.fillPipe clientId) }

/-- `fn drain_pipe`: splice from the pipe to the socket, requesting
`u32::MAX` bytes. -/
def drain_pipe (clientId : Nat) (_c : Client) : SpliceSqe :=
  { srcOffset := -1
  , dstOffset := -1
  , len := U32_MAX
  , userData := UserData.toU64 (.drainPipe clientId) }

/-! ## The client registry (main.rs, `static CLIENTS: Mutex<BTreeMap<u16, Client>>`) -/

/-- The `CLIENTS` map, modelled as an association list with the unique-key
discipline of `BTreeMap`. -/
abbrev Registry := List (Nat × Client)

/-- `BTreeMap::insert`: replace the value at an existing key, otherwise
append a new entry. -/
def regInsert : Registry → Nat → Client → Registry
  | [], k, v => [(k, v)]
  | (k', v') :: rest, k, v =>
    if k' = k then (k, v) :: rest else (k', v') :: regInsert rest k v

/-- `BTreeMap::remove`: drop the entry with the given key. -/
def regRemove : Registry → Nat → Registry
  | [], _ => []
  | (k', v') :: rest, k =>
    if k' = k then regRemove rest k else (k', v') :: regRemove rest k

/-- `BTreeMap::get`: look a key up. -/
def regFind : Registry → Nat → Option Client
  | [], _ => none
  | (k', v') :: rest, k => if k' = k then some v' else regFind rest k

/-- A peer socket address, `SocketAddr` in the source: an IP address
(abstracted to a `Nat`) and a port. -/
structure PeerAddr where
  ip : Nat
  port : Nat
deriving DecidableEq, Repr

/-- The client id chosen by `listen_for_clients`:
`let port = c.peer_addr()?.port()` — only the peer's port, the IP is
discarded. -/
def clientIdOf (peer : PeerAddr) : Nat := peer.port

/-- Registration in `listen_for_clients` after `Client::new` succeeds:
`CLIENTS.lock().unwrap().insert(client_id, client)`. -/
def registerClient (reg : Registry) (peer : PeerAddr) (c : Client) : Registry :=
  regInsert reg (clientIdOf peer) c

/-! ## Splice-completion error dispatch (main.rs, `handle_completions`,
the `(FillPipe | DrainPipe, Err(e))` arm) -/

/-- The errno attached to a failed splice completion.  `PIPE` and
`CONNRESET` are singled out by the source; `AGAIN` is kept as its own
constructor so claims about `EAGAIN`/`EWOULDBLOCK` can be stated; every
other errno is `other`. -/
inductive Errno where
  | PIPE : Errno
  | CONNRESET : Errno
  | AGAIN : Errno
  | other (code : Nat) : Errno
deriving DecidableEq, Repr

/-- The level a message is logged at. -/
inductive LogLevel where
  | info : LogLevel
  | error : LogLevel
deriving DecidableEq, Repr

/-- The observable effect of one completion-error arm: the log level used,
the registry afterwards, and whether the arm calls `std::process::exit`
(it never does — only `handle_file_event` exits). -/
structure ErrorOutcome where
  level : LogLevel
  registry : Registry
  exitCode : Option Nat
deriving DecidableEq, Repr

/-- The `(UserData::FillPipe(id) | UserData::DrainPipe(id), Err(e))` arm of
`handle_completions`: `Errno::PIPE | Errno::CONNRESET` is logged at info
level, anything else at error level, and in every case the client is
removed from `CLIENTS`.  The arm never exits the process and touches no
other client's entry. -/
def handleSpliceError (reg : Registry) (clientId : Nat) (e : Errno) : ErrorOutcome :=
  { level := match e with
      | .PIPE => .info
      | .CONNRESET => .info
      | _ => .error
  , registry := regRemove reg clientId
  , exitCode := none }

/-! ## File metadata, inotify events and the watcher (main.rs, `handle_file_event`) -/

/-- The fields of `std::fs::Metadata` the source reads: `is_file()`,
`nlink()` and `len()`. -/
structure Metadata where
  isRegularFile : Bool
  nlink : Nat
  len : Nat
deriving DecidableEq, Repr

/-- One inotify event, as tested by `ev.events().contains(..)` for the
three subscribed flags `MODIFY | MOVE_SELF | ATTRIB`. -/
structure InotifyEvent where
  moveSelf : Bool
  attrib : Bool
  modify : Bool
deriving DecidableEq, Repr

/-- The observable effect of `handle_file_event` on one event: whether the
process exits (and with which status), and the value stored into the
`FILE_LENGTH` cell, if any. -/
structure FileEventOutcome where
  exitCode : Option Nat
  storedLen : Option Nat
deriving DecidableEq, Repr

/-- `fn handle_file_event`, with `meta` standing for `file.metadata()` at
the time of the event.  The source checks `MOVE_SELF` first (exit 0 unless
lingering), then `ATTRIB` with `nlink == 0` (same), then `MODIFY` (fstat
the handle and release-store the new length into `FILE_LENGTH`). -/
def handle_file_event (ev : InotifyEvent) (meta : Metadata) (linger : Bool) : FileEventOutcome :=
  if ev.moveSelf && !linger then { exitCode := some 0, storedLen := none }
  else if ev.attrib && (meta.nlink == 0) && !linger then { exitCode := some 0, storedLen := none }
  else if ev.modify then { exitCode := none, storedLen := some meta.len }
  else { exitCode := none, storedLen := none }

/-! ## Startup (main.rs, `wait_for_file` and the initialisation in `main`) -/

/-- The result of one `File::open(path)` attempt: `NotFound`, some other
IO error, or success with the file's metadata. -/
inductive OpenResult where
  | notFound : OpenResult
  | otherErr : OpenResult
  | opened (meta : Metadata) : OpenResult
deriving DecidableEq, Repr

/-- How startup can fail fatally. -/
inductive StartupError where
  | openFailed : StartupError
  | notAFile : StartupError
deriving DecidableEq, Repr

/-- `fn wait_for_file`, driven by the sequence of outcomes of successive
`File::open` calls.  `NotFound` logs, sleeps 3 seconds and retries (the
sleep durations are accumulated, first component); any other open error is
returned fatally; on success a non-regular file is the fatal "Not a file"
error.  An exhausted outcome list means the loop is still polling
(`none`). -/
def wait_for_file : List OpenResult → List Nat × Option (Except StartupError Metadata)
  | [] => ([], none)
  | .notFound :: rest =>
    let r := wait_for_file rest
    (3 :: r.1, r.2)
  | .otherErr :: _ => ([], some (.error .openFailed))
  | .opened meta :: _ =>
    ([], if meta.isRegularFile then some (.ok meta) else some (.error .notAFile))

/-- The startup sequence in `main` around `wait_for_file`: once the file is
open, `FILE_LENGTH.store(file.metadata().len(), Release)` initialises the
cell before the runloop starts.  The returned `Nat` is that initial cell
value. -/
def startup (attempts : List OpenResult) : Option (Except StartupError Nat) :=
  match (wait_for_file attempts).2 with
  | none => none
  | some (.error e) => some (.error e)
  | some (.ok meta) => some (.ok meta.len)

/-! ## The per-session transfer protocol (main.rs runloop: `issue_requests`
plus the `FillPipe`/`DrainPipe` completion arms of `handle_completions`)

One client session is modelled against the eventual contents `file` of the
append-only broadcast file (bytes as `Nat`s).  The state carries the
client's fields (`offset`, `bytes_in_pipe`, `in_flight`), the session's
view `len` of the `FILE_LENGTH` cell, and two observables: the bytes
currently sitting in the client's pipe and the bytes already written to
the socket. -/

/-- The state of one client session between runloop events. -/
structure SessionState where
  len : Nat
  offset : Nat
  bytesInPipe : Nat
  inFlight : Bool
  pipe : List Nat
  sent : List Nat
deriving DecidableEq, Repr

/-- The client-struct view of a session state. -/
def SessionState.client (s : SessionState) : Client :=
  { offset := s.offset, bytesInPipe := s.bytesInPipe, inFlight := s.inFlight }

/-- The session right after a successful handshake: `Client::new` leaves
`bytes_in_pipe = 0` and `in_flight = false`, the pipe is fresh and nothing
has been sent.  `o` is the resolved initial offset and `len` the cell
value. -/
def initState (o len : Nat) : SessionState :=
  { len := len, offset := o, bytesInPipe := 0, inFlight := false, pipe := [], sent := [] }

/-- One runloop event affecting the session.

* `issue`: the fill-and-drain branch of `issue_requests` (no request in
  flight, empty pipe, behind the cell value) marks the client in flight.
  The drain-retry branch (`bytes_in_pipe > 0`) changes no client state.
* `fill`: a `FillPipe` completion.  The splice read `n > 0` bytes of the
  file starting at the offset captured by `fill_pipe` — which is the
  current offset, since fills are only issued with an empty pipe and the
  hard-linked drain completes after the fill.  The kernel can only deliver
  bytes that exist, so `offset + n ≤ file.length`; it is not bounded by
  the (possibly stale) cell value.  `handle_completions` asserts
  `n_copied != 0` and does `bytes_in_pipe += n_copied`.
* `drain`: a `DrainPipe` completion: `n` bytes moved from the front of the
  pipe to the socket (`n` cannot exceed what the pipe holds), then
  `bytes_in_pipe -= n; offset += n; in_flight = false`.
* `grow`: the watcher release-stores a new, larger, file size into the
  cell; the session acquire-loads it.  Append-only: the stored size never
  exceeds the eventual length. -/
inductive Step (file : List Nat) : SessionState → SessionState → Prop
  | issue (s : SessionState) (h1 : s.inFlight = false) (h2 : s.bytesInPipe = 0)
      (h3 : s.offset < s.len) :
      Step file s { s with inFlight := true }
  | fill (s : SessionState) (n : Nat) (hif : s.inFlight = true) (hbp : s.bytesInPipe = 0)
      (hn : 0 < n) (hle : s.offset + n ≤ file.length) :
      Step file s { s with bytesInPipe := n, pipe := (file.drop s.offset).take n }
  | drain (s : SessionState) (n : Nat) (hn : n ≤ s.bytesInPipe) :
      Step file s { s with sent := s.sent ++ s.pipe.take n
                         , pipe := s.pipe.drop n
                         , bytesInPipe := s.bytesInPipe - n
                         , offset := s.offset + n
                         , inFlight := false }
  | grow (s : SessionState) (m : Nat) (h1 : s.len ≤ m) (h2 : m ≤ file.length) :
      Step file s { s with len := m }

/-- Reachability along session steps. -/
inductive Reaches (file : List Nat) : SessionState → SessionState → Prop
  | refl (s : SessionState) : Reaches file s s
  | step {s t u : SessionState} : Reaches file s t → Step file t u → Reaches file s u

/-- The session invariant, relative to the resolved initial offset `o`:
the pipe holds exactly the file bytes `[offset, offset + bytesInPipe)`,
the socket has received exactly the file bytes `[o, offset)`, the offset
never moved backwards, a non-empty pipe lies within the file, and the
offset stays within the file as long as it started there. -/
def Inv (file : List Nat) (o : Nat) (s : SessionState) : Prop :=
  s.pipe = (file.drop s.offset).take s.bytesInPipe ∧
  s.sent = (file.drop o).take (s.offset - o) ∧
  o ≤ s.offset ∧
  (0 < s.bytesInPipe → s.offset + s.bytesInPipe ≤ file.length) ∧
  (o ≤ file.length → s.offset ≤ file.length) ∧
  s.offset ≤ max o file.length

/-! ## Helper lemmas -/

theorem inv_init (file : List Nat) (o len : Nat) : Inv file o (initState o len) := by
  refine ⟨rfl, ?_, Nat.le_refl o, ?_, fun h => h, ?_⟩
  · simp [initState]
  · intro h
    simp [initState] at h
  · exact Nat.le_max_left o file.length

theorem inv_step {file : List Nat} {o : Nat} {s t : SessionState}
    (hinv : Inv file o s) (hstep : Step file s t) : Inv file o t := by
  obtain ⟨hpipe, hsent, hle, hbound, hin, hmax⟩ := hinv
  cases hstep with
  | issue h1 h2 h3 =>
    exact ⟨hpipe, hsent, hle, hbound, hin, hmax⟩
  | fill n hif hbp hn hlen =>
    refine ⟨rfl, hsent, hle, fun _ => hlen, hin, hmax⟩
  | drain n hn =>
    refine ⟨?_, ?_, by simp; omega, ?_, ?_, ?_⟩
    · show s.pipe.drop n = (file.drop (s.offset + n)).take (s.bytesInPipe - n)
      rw [hpipe, List.drop_take, List.drop_drop]
    · show s.sent ++ s.pipe.take n = (file.drop o).take (s.offset + n - o)
      have hoff : s.offset + n - o = (s.offset - o) + n := by omega
      rw [hsent, hpipe, List.take_take, Nat.min_eq_left hn, hoff, List.take_add,
        List.drop_drop]
      have : o + (s.offset - o) = s.offset := by omega
      rw [this]
    · show 0 < s.bytesInPipe - n → (s.offset + n) + (s.bytesInPipe - n) ≤ file.length
      intro hpos
      have := hbound (by omega)
      omega
    · show o ≤ file.length → s.offset + n ≤ file.length
      intro ho
      rcases Nat.eq_zero_or_pos n with rfl | hpos
      · simpa using hin ho
      · have := hbound (by omega)
        omega
    · show s.offset + n ≤ max o file.length
      rcases Nat.eq_zero_or_pos n with rfl | hpos
      · simpa using hmax
      · have := hbound (by omega)
        exact Nat.le_trans (by omega) (Nat.le_max_right o file.length)
  | grow m h1 h2 =>
    exact ⟨hpipe, hsent, hle, hbound, hin, hmax⟩

theorem inv_of_reaches {file : List Nat} {o len : Nat} {s : SessionState}
    (h : Reaches file (initState o len) s) : Inv file o s := by
  induction h with
  | refl => exact inv_init file o len
  | step _ hstep ih => exact inv_step ih hstep

/-- The offset never moves backwards in any single step. -/
theorem step_offset_mono {file : List Nat} {s t : SessionState} (h : Step file s t) :
    s.offset ≤ t.offset := by
  cases h with
  | issue h1 h2 h3 => exact Nat.le_refl _
  | fill n hif hbp hn hlen => exact Nat.le_refl _
  | drain n hn => exact Nat.le_add_right _ _
  | grow m h1 h2 => exact Nat.le_refl _

theorem regFind_regInsert_self (reg : Registry) (k : Nat) (v : Client) :
    regFind (regInsert reg k v) k = some v := by
  induction reg with
  | nil => simp [regInsert, regFind]
  | cons kv rest ih =>
    obtain ⟨k', v'⟩ := kv
    by_cases h : k' = k <;> simp [regInsert, regFind, h, ih]

theorem regFind_regInsert_ne (reg : Registry) (k k' : Nat) (v : Client) (h : k ≠ k') :
    regFind (regInsert reg k v) k' = regFind reg k' := by
  induction reg with
  | nil => simp [regInsert, regFind, h]
  | cons kv rest ih =>
    obtain ⟨k0, v0⟩ := kv
    by_cases h0 : k0 = k <;> simp [regInsert, regFind, h0, h, ih]

theorem regFind_regRemove_self (reg : Registry) (k : Nat) :
    regFind (regRemove reg k) k = none := by
  induction reg with
  | nil => simp [regRemove, regFind]
  | cons kv rest ih =>
    obtain ⟨k0, v0⟩ := kv
    by_cases h0 : k0 = k <;> simp [regRemove, regFind, h0, ih]

theorem regFind_regRemove_ne (reg : Registry) (k k' : Nat) (h : k' ≠ k) :
    regFind (regRemove reg k) k' = regFind reg k' := by
  induction reg with
  | nil => simp [regRemove, regFind]
  | cons kv rest ih =>
    obtain ⟨k0, v0⟩ := kv
    by_cases h0 : k0 = k
    · subst h0
      simp [regRemove, regFind, Ne.symm h, ih]
    · simp [regRemove, regFind, h0, ih]

/-! ## Claim theorems -/

/-- C10: the io_uring completion-tag round trip `TryFrom ∘ From` is NOT the
identity on every `u16` client id: it fails at port `u16::MAX = 65535`,
because the source matches on the half-open ranges `FILL_FROM..FILL_TO`
and `DRAIN_FROM..DRAIN_TO` (an off-by-one; `..=` was intended).  The
encoded tag `165535` (resp. `265535`) falls outside both ranges and
decodes to the "Unknown user data" error, while every smaller port and
the two unit tags round-trip fine. -/
theorem c10_userdata_roundtrip_fails_at_port_65535 :
    UserData.tryFrom (UserData.toU64 (.fillPipe 65535)) = none ∧
    UserData.tryFrom (UserData.toU64 (.drainPipe 65535)) = none ∧
    UserData.tryFrom (UserData.toU64 (.fillPipe 65534)) = some (.fillPipe 65534) ∧
    UserData.tryFrom (UserData.toU64 (.drainPipe 65534)) = some (.drainPipe 65534) ∧
    UserData.tryFrom (UserData.toU64 (.fillPipe 0)) = some (.fillPipe 0) ∧
    UserData.tryFrom (UserData.toU64 (.drainPipe 0)) = some (.drainPipe 0) ∧
    UserData.tryFrom (UserData.toU64 .newClient) = some .newClient ∧
    UserData.tryFrom (UserData.toU64 .inotify) = some .inotify := by
  decide

/-- C2: for every parsed header `h`, a non-negative `h` resolves to the
offset `h` itself, and a negative `h` resolves to `max 0 (L + h)` against
the file-length cell value `L` loaded once at handshake, saturating to 0
whenever `|h|` exceeds `L` — never an error. -/
theorem c2_header_offset_resolution (h : Int) (L : Nat) :
    (0 ≤ h → resolveOffset h L = h.toNat) ∧
    (h < 0 → ((resolveOffset h L : Nat) : Int) = max 0 ((L : Int) + h)) ∧
    (h < 0 → (L : Int) < -h → resolveOffset h L = 0) := by
  refine ⟨fun h1 => by simp [resolveOffset, h1], fun h1 => ?_, fun h1 h2 => ?_⟩
  · rw [resolveOffset, if_neg (by omega)]
    omega
  · rw [resolveOffset, if_neg (by omega)]
    omega

/-- Witness for C2 at headers `7`, `-5` and `-1000000`. -/
theorem c2_header_offset_resolution_witness :
    resolveOffset 7 3 = (7 : Int).toNat ∧
    ((resolveOffset (-5) 11 : Nat) : Int) = max 0 ((11 : Int) + (-5)) ∧
    resolveOffset (-1000000) 4 = 0 :=
  ⟨(c2_header_offset_resolution 7 3).1 (by decide),
   (c2_header_offset_resolution (-5) 11).2.1 (by decide),
   (c2_header_offset_resolution (-1000000) 4).2.2 (by decide) (by decide)⟩

/-- C4 counterexample: the length requested by a single `fill_pipe` splice
is `u32::MAX`, not `CHUNK_SIZE = 1 MiB`; the transfer loop has no 1 MiB
cap. -/
theorem c4_counterexample_splice_len_not_chunk_size :
    ¬ (fill_pipe 0 (Client.new 0 0)).len ≤ CHUNK_SIZE ∧
    (drain_pipe 0 (Client.new 0 0)).len ≠ CHUNK_SIZE := by
  decide

/-- C4 amended: every splice request built by `fill_pipe`/`drain_pipe`
asks for `u32::MAX = 4294967295` bytes (the fill additionally reading from
the client's current offset); the per-iteration transfer is bounded by the
kernel's pipe capacity, not by the 1 MiB `CHUNK_SIZE` of the historical
pool.rs variant. -/
theorem c4_splice_request_length (cid : Nat) (c : Client) :
    (fill_pipe cid c).len = U32_MAX ∧
    (drain_pipe cid c).len = U32_MAX ∧
    (fill_pipe cid c).srcOffset = (c.offset : Int) ∧
    U32_MAX ≠ CHUNK_SIZE :=
  ⟨rfl, rfl, rfl, by decide⟩

/-- C5: `handle_file_event` stores the fstat'ed length on a modify event
(without exiting), exits with status 0 on a move-self event exactly when
`linger` is false, treats an attribute event with `nlink == 0` the same as
move-self, and takes no other exit decision: any exit is status 0, happens
only with `linger` false, and only for move-self or attribute-with-zero-
nlink events. -/
theorem c5_watcher_event_dispatch (meta : Metadata) (linger : Bool) (ev : InotifyEvent) :
    (handle_file_event ⟨false, false, true⟩ meta linger
      = { exitCode := none, storedLen := some meta.len }) ∧
    (handle_file_event ⟨true, false, false⟩ meta linger
      = { exitCode := if linger then none else some 0, storedLen := none }) ∧
    (meta.nlink = 0 →
      handle_file_event ⟨false, true, false⟩ meta linger
        = { exitCode := if linger then none else some 0, storedLen := none }) ∧
    ((handle_file_event ev meta linger).exitCode ≠ none →
      (handle_file_event ev meta linger).exitCode = some 0 ∧ linger = false ∧
      (ev.moveSelf = true ∨ (ev.attrib = true ∧ meta.nlink = 0))) := by
  obtain ⟨ms, ab, md⟩ := ev
  by_cases hn : meta.nlink = 0 <;>
    cases linger <;> cases ms <;> cases ab <;> cases md <;>
      simp [handle_file_event, hn]

/-- Witness for C5 with `nlink = 0`, length 42 and `linger = false`. -/
theorem c5_watcher_event_dispatch_witness :
    handle_file_event ⟨false, false, true⟩ ⟨true, 0, 42⟩ false
      = { exitCode := none, storedLen := some 42 } ∧
    (handle_file_event ⟨true, false, false⟩ ⟨true, 0, 42⟩ false).exitCode = some 0 ∧
    handle_file_event ⟨false, true, false⟩ ⟨true, 0, 42⟩ false
      = { exitCode := some 0, storedLen := none } := by
  obtain ⟨h1, h2, h3, _⟩ :=
    c5_watcher_event_dispatch ⟨true, 0, 42⟩ false ⟨true, false, false⟩
  exact ⟨h1, by simp [h2], by simpa using h3 rfl⟩

/-- C6: a failed splice completion with `EPIPE` or `ECONNRESET` is logged
at info level, any other errno at error level; in both cases exactly that
client's registry entry is removed, every other entry is untouched, and
the error arm never exits the process. -/
theorem c6_client_error_policy (reg : Registry) (cid : Nat) (e : Errno) :
    ((e = .PIPE ∨ e = .CONNRESET) → (handleSpliceError reg cid e).level = .info) ∧
    (e ≠ .PIPE → e ≠ .CONNRESET → (handleSpliceError reg cid e).level = .error) ∧
    (handleSpliceError reg cid e).exitCode = none ∧
    regFind (handleSpliceError reg cid e).registry cid = none ∧
    (∀ cid', cid' ≠ cid →
      regFind (handleSpliceError reg cid e).registry cid' = regFind reg cid') := by
  refine ⟨?_, ?_, rfl, regFind_regRemove_self reg cid,
    fun cid' h => regFind_regRemove_ne reg cid cid' h⟩
  · rintro (rfl | rfl) <;> rfl
  · intro h1 h2
    cases e with
    | PIPE => exact absurd rfl h1
    | CONNRESET => exact absurd rfl h2
    | AGAIN => rfl
    | other code => rfl

/-- Witness for C6: a reset peer is logged at info level, an unexpected
errno at error level, and an unrelated client's entry survives. -/
theorem c6_client_error_policy_witness :
    (handleSpliceError [(5, Client.new 0 0)] 5 .CONNRESET).level = .info ∧
    (handleSpliceError [(5, Client.new 0 0)] 5 (.other 13)).level = .error ∧
    regFind (handleSpliceError [(7, Client.new 3 0), (5, Client.new 0 0)] 5 .PIPE).registry 7
      = regFind [(7, Client.new 3 0), (5, Client.new 0 0)] 7 :=
  ⟨(c6_client_error_policy [(5, Client.new 0 0)] 5 .CONNRESET).1 (Or.inr rfl),
   (c6_client_error_policy [(5, Client.new 0 0)] 5 (.other 13)).2.1 (by decide) (by decide),
   (c6_client_error_policy [(7, Client.new 3 0), (5, Client.new 0 0)] 5 .PIPE).2.2.2.2
     7 (by decide)⟩

/-- C7 counterexample: an `EAGAIN` splice completion does NOT leave the
session running with its registry entry intact — it falls into the
generic error arm, is logged at error level and the client is removed. -/
theorem c7_counterexample_eagain_removes_client :
    (handleSpliceError [(5, Client.new 0 0)] 5 .AGAIN).level = .error ∧
    regFind (handleSpliceError [(5, Client.new 0 0)] 5 .AGAIN).registry 5 = none := by
  decide

/-- C7 amended: an `EAGAIN` completion is treated like any other
unexpected errno: logged at error level and the session terminated (its
registry entry removed, others untouched).  There is no wait-and-retry
path for `EAGAIN`; the implementation relies on io_uring suspending the
splice instead of surfacing `EAGAIN`. -/
theorem c7_eagain_treated_as_generic_error (reg : Registry) (cid : Nat) :
    (handleSpliceError reg cid .AGAIN).level = .error ∧
    (handleSpliceError reg cid .AGAIN).exitCode = none ∧
    regFind (handleSpliceError reg cid .AGAIN).registry cid = none ∧
    (∀ cid', cid' ≠ cid →
      regFind (handleSpliceError reg cid .AGAIN).registry cid' = regFind reg cid') :=
  ⟨rfl, rfl, regFind_regRemove_self reg cid,
   fun cid' h => regFind_regRemove_ne reg cid cid' h⟩

/-- Witness for C7 at a two-client registry. -/
theorem c7_eagain_treated_as_generic_error_witness :
    (handleSpliceError [(9, Client.new 2 4), (3, Client.new 0 0)] 9 .AGAIN).level = .error ∧
    regFind (handleSpliceError [(9, Client.new 2 4), (3, Client.new 0 0)] 9 .AGAIN).registry 3
      = regFind [(9, Client.new 2 4), (3, Client.new 0 0)] 3 :=
  ⟨(c7_eagain_treated_as_generic_error [(9, Client.new 2 4), (3, Client.new 0 0)] 9).1,
   (c7_eagain_treated_as_generic_error [(9, Client.new 2 4), (3, Client.new 0 0)] 9).2.2.2
     3 (by decide)⟩

/-- C8: on startup, a not-found open is retried after a 3-second sleep
until it succeeds, any other open error is fatal, an opened path whose
metadata is not a regular file is the fatal "Not a file" error, and on
success the file-length cell is initialised with the metadata length
before the runloop starts. -/
theorem c8_startup_behavior (rest : List OpenResult) (meta : Metadata) :
    (wait_for_file (.notFound :: rest)).1 = 3 :: (wait_for_file rest).1 ∧
    (wait_for_file (.notFound :: rest)).2 = (wait_for_file rest).2 ∧
    (wait_for_file (.otherErr :: rest)).2 = some (.error .openFailed) ∧
    (meta.isRegularFile = false →
      (wait_for_file (.opened meta :: rest)).2 = some (.error .notAFile)) ∧
    (meta.isRegularFile = true →
      startup (.opened meta :: rest) = some (.ok meta.len)) := by
  refine ⟨rfl, rfl, rfl, fun h => ?_, fun h => ?_⟩
  · simp [wait_for_file, h]
  · simp [startup, wait_for_file, h]

/-- Witness for C8: a directory-like path is fatal, and a file that
appears on the second attempt initialises the cell to its length 17 after
one 3-second sleep. -/
theorem c8_startup_behavior_witness :
    (wait_for_file [.opened ⟨false, 1, 0⟩]).2 = some (.error .notAFile) ∧
    startup [.opened ⟨true, 1, 17⟩] = some (.ok 17) ∧
    (wait_for_file [.notFound, .opened ⟨true, 1, 17⟩]).1 = 3 :: (wait_for_file [.opened ⟨true, 1, 17⟩]).1 :=
  ⟨(c8_startup_behavior [] ⟨false, 1, 0⟩).2.2.2.1 rfl,
   (c8_startup_behavior [] ⟨true, 1, 17⟩).2.2.2.2 rfl,
   (c8_startup_behavior [.opened ⟨true, 1, 17⟩] ⟨true, 1, 17⟩).1⟩

/-- C9 counterexample: the registry key is only the peer's source port, so
two distinct concurrent sessions — peers `1.5000` and `2.5000` from
different hosts — collide: the second registration overwrites the first
session's entry, leaving two running sessions with one shared entry. -/
theorem c9_counterexample_port_collision_overwrites :
    (⟨1, 5000⟩ : PeerAddr) ≠ (⟨2, 5000⟩ : PeerAddr) ∧
    clientIdOf ⟨1, 5000⟩ = clientIdOf ⟨2, 5000⟩ ∧
    Client.new 0 0 ≠ Client.new 7 0 ∧
    regFind
      (registerClient (registerClient [] ⟨1, 5000⟩ (Client.new 0 0)) ⟨2, 5000⟩ (Client.new 7 0))
      (clientIdOf ⟨1, 5000⟩) = some (Client.new 7 0) := by
  decide

/-- C9 amended: registry entries are keyed by peer source port.  Sessions
whose peers have distinct ports each keep exactly their own entry
(registration of one does not disturb the other), and a session's entry is
gone after the deregistration that ends it; but sessions whose peers share
a source port overwrite each other's entry. -/
theorem c9_registry_keyed_by_peer_port (reg : Registry) (p q : PeerAddr) (c d : Client)
    (h : clientIdOf p ≠ clientIdOf q) :
    regFind (registerClient (registerClient reg p c) q d) (clientIdOf q) = some d ∧
    regFind (registerClient (registerClient reg p c) q d) (clientIdOf p)
      = regFind (registerClient reg p c) (clientIdOf p) ∧
    regFind (registerClient reg p c) (clientIdOf p) = some c ∧
    regFind (regRemove (registerClient reg p c) (clientIdOf p)) (clientIdOf p) = none :=
  ⟨regFind_regInsert_self _ _ _,
   regFind_regInsert_ne _ _ _ _ (Ne.symm h),
   regFind_regInsert_self _ _ _,
   regFind_regRemove_self _ _⟩

/-- Witness for C9 with two sessions from the same host on ports 4000 and
4001. -/
theorem c9_registry_keyed_by_peer_port_witness :
    regFind
      (registerClient (registerClient [] ⟨1, 4000⟩ (Client.new 0 0)) ⟨1, 4001⟩ (Client.new 5 9))
      (clientIdOf ⟨1, 4001⟩) = some (Client.new 5 9) ∧
    regFind (regRemove (registerClient [] ⟨1, 4000⟩ (Client.new 0 0)) (clientIdOf ⟨1, 4000⟩))
      (clientIdOf ⟨1, 4000⟩) = none :=
  ⟨(c9_registry_keyed_by_peer_port [] ⟨1, 4000⟩ ⟨1, 4001⟩ (Client.new 0 0) (Client.new 5 9)
      (by decide)).1,
   (c9_registry_keyed_by_peer_port [] ⟨1, 4000⟩ ⟨1, 4001⟩ (Client.new 0 0) (Client.new 5 9)
      (by decide)).2.2.2⟩

/-- C1: in every state a session can reach from its handshake, the bytes
written to the socket are exactly the file contents from the resolved
initial offset up to the current offset — their count is
`offset − initial_offset`, with no byte duplicated, omitted or reordered —
and whenever `bytes_in_pipe > 0` (a partially drained payload) and no
request is in flight, `issue_requests` retries only the drain; the offset
advances exactly by the bytes each drain actually sent. -/
theorem c1_session_stream_matches_file (file : List Nat) (hd : Int) (len0 : Nat)
    (s : SessionState)
    (hr : Reaches file (initState (resolveOffset hd len0) len0) s) :
    s.sent = (file.drop (resolveOffset hd len0)).take (s.offset - resolveOffset hd len0) ∧
    s.sent.length = s.offset - resolveOffset hd len0 ∧
    (0 < s.bytesInPipe → s.inFlight = false → issueAction s.len s.client = .drainOnly) := by
  obtain ⟨hpipe, hsent, hle, hbound, hin, hmax⟩ := inv_of_reaches hr
  refine ⟨hsent, ?_, ?_⟩
  · rw [hsent, List.length_take, List.length_drop]
    rcases Nat.le_total (resolveOffset hd len0) file.length with hof | hof
    · have := hin hof
      omega
    · rw [Nat.max_eq_left hof] at hmax
      omega
  · intro hbp hif
    simp [issueAction, SessionState.client, hif, hbp]

/-- Witness for C1: header 0 on the 3-byte file `[10, 20, 30]`, a fill of
two bytes followed by two partial drains of one byte each. -/
theorem c1_session_stream_matches_file_witness :
    (⟨3, 2, 0, false, [], [10, 20]⟩ : SessionState).sent
      = (([10, 20, 30] : List Nat).drop (resolveOffset 0 3)).take
          ((⟨3, 2, 0, false, [], [10, 20]⟩ : SessionState).offset - resolveOffset 0 3) := by
  have hinit : initState (resolveOffset 0 3) 3 = (⟨3, 0, 0, false, [], []⟩ : SessionState) := by
    decide
  have h1 : Step [10, 20, 30] ⟨3, 0, 0, false, [], []⟩ ⟨3, 0, 0, true, [], []⟩ :=
    Step.issue _ rfl rfl (by decide)
  have h2 : Step [10, 20, 30] ⟨3, 0, 0, true, [], []⟩ ⟨3, 0, 2, true, [10, 20], []⟩ :=
    Step.fill _ 2 rfl rfl (by decide) (by decide)
  have h3 : Step [10, 20, 30] ⟨3, 0, 2, true, [10, 20], []⟩ ⟨3, 1, 1, false, [20], [10]⟩ :=
    Step.drain _ 1 (by decide)
  have h4 : Step [10, 20, 30] ⟨3, 1, 1, false, [20], [10]⟩ ⟨3, 2, 0, false, [], [10, 20]⟩ :=
    Step.drain _ 1 (by decide)
  have hr : Reaches [10, 20, 30] (initState (resolveOffset 0 3) 3)
      ⟨3, 2, 0, false, [], [10, 20]⟩ := by
    rw [hinit]
    exact Reaches.step (Reaches.step (Reaches.step (Reaches.step (Reaches.refl _) h1) h2) h3) h4
  exact (c1_session_stream_matches_file [10, 20, 30] 0 3 _ hr).1

/-- C3 counterexample: immediately after a handshake with header `100`
against file length 0, the session's offset is 100, strictly above the
file-length cell's value — a non-negative header is not clamped to the
current length, so `offset ≤ length` fails as stated. -/
theorem c3_counterexample_positive_header_exceeds_length :
    (initState (resolveOffset 100 0) 0).len < (initState (resolveOffset 100 0) 0).offset := by
  decide

/-- C3 amended: over every reachable session state, the offset is
non-decreasing (it starts at the resolved initial offset and no step moves
it backwards), and it never exceeds the broadcast file's length provided
the resolved initial offset did not already exceed it — which holds for
every negative header, whose resolved offset is at most the handshake-time
length, but can fail for a non-negative header pointing past the end of
the file. -/
theorem c3_offset_monotone_and_bounded (file : List Nat) (hd : Int) (len0 : Nat)
    (s : SessionState)
    (hr : Reaches file (initState (resolveOffset hd len0) len0) s) :
    resolveOffset hd len0 ≤ s.offset ∧
    (∀ t, Step file s t → s.offset ≤ t.offset) ∧
    (resolveOffset hd len0 ≤ file.length → s.offset ≤ file.length) ∧
    (hd < 0 → resolveOffset hd len0 ≤ len0) := by
  obtain ⟨hpipe, hsent, hle, hbound, hin, hmax⟩ := inv_of_reaches hr
  refine ⟨hle, fun t ht => step_offset_mono ht, hin, fun hneg => ?_⟩
  rw [resolveOffset, if_neg (by omega)]
  omega

/-- Witness for C3: header `-1` against length 2 of the file `[5, 6]`. -/
theorem c3_offset_monotone_and_bounded_witness :
    resolveOffset (-1) 2 ≤ (initState (resolveOffset (-1) 2) 2).offset ∧
    (initState (resolveOffset (-1) 2) 2).offset ≤ ([5, 6] : List Nat).length ∧
    resolveOffset (-1) 2 ≤ 2 := by
  obtain ⟨h1, _, h3, h4⟩ :=
    c3_offset_monotone_and_bounded [5, 6] (-1) 2 (initState (resolveOffset (-1) 2) 2)
      (Reaches.refl _)
  exact ⟨h1, h3 (by decide), h4 (by decide)⟩

end Tailsrv
